import Mathlib

/-!
Shallow embedding of the single-instance coordinator and status poller of
the Import-LIB-KiCad-Plugin repository
(`src/plugins/single_instance_manager.py`, `src/plugins/impart_action.py`).

Network and UI effects are modelled by explicit environments: each fallible
operation of the Python code (socket connect/send/recv/close, `hasattr`
probes, wx method invocations) becomes a field of an environment record
whose value says how that operation would behave, and the Python functions
become total Lean functions over those environments.  A Python exception
that the code catches is modelled by the corresponding `Except`/match; an
exception the code does not catch surfaces as an explicit `crashed`/`error`
outcome.
-/

namespace SingleInstanceManager

/-- Outcome of one blocking socket operation: a value, `socket.timeout`,
or any other `socket.error`/`OSError` transport error. -/
inductive NetIO (α : Type) : Type where
  | ok (a : α)
  | timeout
  | err
deriving DecidableEq

/-- Environment for one run of `is_already_running` (the probe client):
how each socket operation of the single attempt would behave. -/
structure ProbeEnv : Type where
  connectR : NetIO Unit
  sendR : NetIO Unit
  recvR : NetIO String
  closeOk : Bool
deriving DecidableEq

/-- Result of a probe run: the returned boolean, the number of connection
attempts made, and the data handed to `send` (if `send` succeeded). -/
structure ProbeResult : Type where
  result : Bool
  connectAttempts : Nat
  sent : Option String
deriving DecidableEq

/-- `json.dumps(\x7b"command": "focus"\x7d)` as produced by Python. -/
def focus_message : String := "\x7b\"command\": \"focus\"\x7d"

/-- Embedding of `SingleInstanceManager.is_already_running`
(`single_instance_manager.py` lines 28-54).  The outer `try` catches every
`socket.error`/`OSError` (returning `False`); the inner `try` around `recv`
catches only `socket.timeout` (absence of an acknowledgment), so a
non-timeout transport error during `recv` falls through to the outer
handler.  The code contains no loop: exactly one connect attempt. -/
def is_already_running (env : ProbeEnv) : ProbeResult :=
  match env.connectR with
  | .timeout => ⟨false, 1, none⟩
  | .err => ⟨false, 1, none⟩
  | .ok _ =>
    match env.sendR with
    | .timeout => ⟨false, 1, none⟩
    | .err => ⟨false, 1, none⟩
    | .ok _ =>
      match env.recvR with
      | .err => ⟨false, 1, some focus_message⟩
      | _ =>
        if env.closeOk then ⟨true, 1, some focus_message⟩
        else ⟨false, 1, some focus_message⟩

/-- Value of the `command` entry of a decoded JSON object: a JSON string,
or a JSON value of any other type. -/
inductive CmdVal : Type where
  | str (s : String)
  | other
deriving DecidableEq

/-- Outcome of `json.loads` on the received UTF-8 text: `fail` when it
raises `json.JSONDecodeError`, `nonObj` when it yields a non-`dict` value
(list, string, number, boolean or null), and `obj cmd` when it yields a
`dict` whose `"command"` entry is `cmd` (`none` when absent). -/
inductive Decoded : Type where
  | fail
  | nonObj
  | obj (command : Option CmdVal)
deriving DecidableEq

/-- The bytes delivered by `recv` on one accepted connection: nothing
(peer closed without sending), bytes that are not valid UTF-8, or UTF-8
text together with its `json.loads` outcome. -/
inductive RecvData : Type where
  | empty
  | notUtf8
  | text (d : Decoded)
deriving DecidableEq

/-- Uncaught Python exceptions that can escape the connection handler:
`UnicodeDecodeError` from `.decode("utf-8")` and `AttributeError` from
`message.get` on a non-`dict`. -/
inductive PyErr : Type where
  | unicodeDecodeError
  | attrError
deriving DecidableEq

/-- Embedding of the body of one accepted connection in `_server_loop`
(lines 85-96) together with `_handle_command` (lines 105-114).
`fe` is the truthiness of `self.frontend_instance`, `wxA` whether the `wx`
module imported.  Returns the acknowledgment string written to the peer
(if any) and whether `wx.CallAfter(self._bring_to_foreground)` was
scheduled; `.error` models an exception that the handlers of the loop
(`socket.timeout`, `socket.error`, and the inner `json.JSONDecodeError`)
do not catch. -/
def handleConn (fe wxA : Bool) : RecvData → Except PyErr (Option String × Bool)
  | .empty => .ok (none, false)
  | .notUtf8 => .error .unicodeDecodeError
  | .text .fail => .ok (some "ERROR", false)
  | .text .nonObj => .error .attrError
  | .text (.obj cmd) =>
      .ok (some "OK", decide (cmd = some (.str "focus")) && fe && wxA)

/-- Input of one iteration of the accept loop: `accept` (or the in-handler
`recv`) timed out, `accept`/`recv`/`send` raised a `socket.error`, or a
connection was accepted and delivered `r`. -/
inductive LoopEvent : Type where
  | acceptTimeout
  | acceptErr
  | connection (r : RecvData)
deriving DecidableEq

/-- How the accept loop ended relative to a finite event trace: still
looping after the trace, exited via `break` on a `socket.error`, or
terminated by an uncaught exception. -/
inductive LoopStatus : Type where
  | running
  | stopped
  | crashed
deriving DecidableEq

/-- Embedding of `_server_loop` (lines 77-103) over a finite trace of
events, with `self.running` held true: returns the acknowledgments written
in order, the number of scheduled foreground dispatches, and how the loop
ended.  `socket.timeout` continues the loop; `socket.error` breaks it; an
uncaught exception from the handler terminates it with no reply. -/
def serverLoop (fe wxA : Bool) : List LoopEvent → List String × Nat × LoopStatus
  | [] => ([], 0, .running)
  | .acceptTimeout :: es => serverLoop fe wxA es
  | .acceptErr :: _ => ([], 0, .stopped)
  | .connection r :: es =>
    match handleConn fe wxA r with
    | .error _ => ([], 0, .crashed)
    | .ok (ack, disp) =>
      let rest := serverLoop fe wxA es
      (ack.toList ++ rest.1, (if disp then rest.2.1 + 1 else rest.2.1), rest.2.2)

/-- Environment for one run of `_bring_to_foreground` on a registered
window handle: the outcome of each `hasattr` probe and of each wx method
invocation the code may perform.  `.error ()` models the invocation
raising (a destroyed window); results of `IsShown()`/`IsIconized()` are
booleans. -/
structure FrontendHandle : Type where
  hasIsShown : Bool
  isShownR : Except Unit Bool
  showR : Except Unit Unit
  hasIsIconized : Bool
  isIconizedR : Except Unit Bool
  iconizeR : Except Unit Unit
  raiseR : Except Unit Unit
  setFocusR : Except Unit Unit
  hasRequestUserAttention : Bool
  requestUserAttentionR : Except Unit Unit

/-- The `try` block of `_bring_to_foreground` (lines 122-152): performs the
capability check and the sequence of wx invocations, returning the registry
content afterwards (`none` when the missing-`IsShown` check cleared it,
`some h` on full success); `.error` models an exception reaching the
`except Exception` handler. -/
def bring_to_foreground_body (h : FrontendHandle) :
    Except Unit (Option FrontendHandle) :=
  if !h.hasIsShown then .ok none
  else do
    let shown ← h.isShownR
    if !shown then
      h.showR
    if h.hasIsIconized then
      let icon ← h.isIconizedR
      if icon then
        h.iconizeR
    h.raiseR
    h.setFocusR
    if h.hasRequestUserAttention then
      h.requestUserAttentionR
    return some h

/-- Embedding of `_bring_to_foreground` (lines 116-157) as a transformer of
the registry (`self.frontend_instance`): with no handle it logs and
returns; any exception inside the `try` is caught and resets the registry
to `None`.  Totality of this function is the no-propagation guarantee. -/
def bring_to_foreground :
    Option FrontendHandle → Option FrontendHandle
  | none => none
  | some h =>
    match bring_to_foreground_body h with
    | .ok st => st
    | .error _ => none

/-- The listening socket: whether it has been closed, and whether calling
`close()` on it would raise. -/
structure Sock : Type where
  closed : Bool
  closeRaises : Bool
deriving DecidableEq

/-- The mutable state of a `SingleInstanceManager` object (lines 21-26),
with the UI handle abstracted to a type parameter: the port, the listening
socket (if any), whether a server thread object exists and is alive, the
`running` flag and the registered frontend instance. -/
structure ManagerState (H : Type) : Type where
  port : Nat
  sock : Option Sock
  hasThread : Bool
  threadAlive : Bool
  running : Bool
  frontend_instance : Option H

/-- `SingleInstanceManager.__init__` (lines 21-26) with default port
59999. -/
def initState (H : Type) : ManagerState H :=
  ⟨59999, none, false, false, false, none⟩

/-- Embedding of `register_frontend` (lines 159-169): stores the handle
and returns `True` only when none is registered, otherwise returns `False`
leaving the state untouched. -/
def register_frontend {H : Type} (m : ManagerState H) (h : H) :
    Bool × ManagerState H :=
  match m.frontend_instance with
  | none => (true, { m with frontend_instance := some h })
  | some _ => (false, m)

/-- Embedding of `unregister_frontend` (lines 171-174). -/
def unregister_frontend {H : Type} (m : ManagerState H) : ManagerState H :=
  { m with frontend_instance := none }

/-- Embedding of `stop_server` (lines 182-199): clears `running`; if a
socket exists, closes it inside a `try` whose handler swallows any
exception; joins the server thread with a bounded timeout (state unchanged,
a warning is only logged); finally calls `unregister_frontend`.  It is a
total function on every state — including the freshly-constructed one and
states a previous `stop_server` produced — which embeds that it never
raises. -/
def stop_server {H : Type} (m : ManagerState H) : ManagerState H :=
  let m1 : ManagerState H := { m with running := false }
  let m2 : ManagerState H :=
    match m1.sock with
    | none => m1
    | some s =>
      if s.closeRaises then m1
      else { m1 with sock := some ⟨true, s.closeRaises⟩ }
  unregister_frontend m2

end SingleInstanceManager

namespace ImpartBackend

/-- Embedding of `ImpartBackend.print_to_buffer` (`impart_action.py` lines
182-185): each argument is stringified, newline-terminated and concatenated
onto `self.print_buffer`.  Arguments appear already stringified. -/
def print_to_buffer (print_buffer : String) (args : List String) : String :=
  args.foldl (fun buf text => buf ++ text ++ "\n") print_buffer

end ImpartBackend

namespace PluginThread

/-- One cycle of `PluginThread.run` (`impart_action.py` lines 92-100):
compare the watermark `len_str` against the current buffer length; on a
difference post the full current buffer through `wx.PostEvent` and set the
watermark to the observed length, otherwise post nothing. -/
def pollCycle (len_str : Nat) (buffer : String) : Nat × Option String :=
  if len_str ≠ buffer.length then (buffer.length, some buffer)
  else (len_str, none)

/-- `PluginThread.run` over a finite trace of buffer snapshots, one per
cycle, starting from watermark `len_str` (initially 0 in the code):
the list of relay events posted. -/
def pollRun (len_str : Nat) : List String → List String
  | [] => []
  | b :: bs =>
    match pollCycle len_str b with
    | (w, some e) => e :: pollRun w bs
    | (w, none) => pollRun w bs

end PluginThread

open SingleInstanceManager ImpartBackend PluginThread

/-- C1: for every probe attempt, `is_already_running` makes exactly one
connection attempt (no retries); it returns `true` exactly when the
connection, the send of the encoded focus command and the close succeed
and `recv` raises no non-timeout transport error (a missing acknowledgment
— `recv` timing out — is not an error); it returns `false` on connection
refusal, timeout, or any transport error; and whenever it returns `true`
the encoded focus command message was sent. -/
theorem is_already_running_spec (env : ProbeEnv) :
    (is_already_running env).connectAttempts = 1
    ∧ ((is_already_running env).result = true ↔
        env.connectR = .ok () ∧ env.sendR = .ok () ∧ env.recvR ≠ .err
          ∧ env.closeOk = true)
    ∧ ((is_already_running env).result = true →
        (is_already_running env).sent = some focus_message) := by
  obtain ⟨c, s, r, cl⟩ := env
  cases c <;> cases s <;> cases r <;> cases cl <;>
    simp [is_already_running]

/-- Witness for C1: a probe whose connection and send succeed and whose
`recv` times out (no acknowledgment) sent the encoded focus command. -/
theorem is_already_running_spec_witness :
    (is_already_running ⟨.ok (), .ok (), .timeout, true⟩).sent =
      some focus_message :=
  (is_already_running_spec ⟨.ok (), .ok (), .timeout, true⟩).2.2 (by decide)

/-- C2, evaluated: the valid-UTF-8 malformed payload (`not-json`) is
answered with `ERROR` and a subsequent well-formed focus message on a new
connection still gets `OK` with one dispatch — but a non-UTF-8 payload
makes `.decode("utf-8")` raise an uncaught `UnicodeDecodeError`, so no
`ERROR` is written and the accept loop terminates: the subsequent focus
message is never answered. -/
theorem serverLoop_malformed_payload_eval :
    serverLoop true true
        [.connection (.text .fail),
         .connection (.text (.obj (some (.str "focus"))))] =
      (["ERROR", "OK"], 1, .running)
    ∧ serverLoop true true
        [.connection .notUtf8,
         .connection (.text (.obj (some (.str "focus"))))] =
      ([], 0, .crashed) := by
  decide

/-- C3 counterexample: the server writes the acknowledgment `ERROR`, which
is 5 bytes long, not a 2-byte ASCII token as claimed. -/
theorem serverLoop_ack_five_bytes :
    (serverLoop true true [.connection (.text .fail)]).1 = ["ERROR"]
    ∧ ¬ ("ERROR".length = 2) := by
  decide

/-- C3 (amended): every acknowledgment the server writes to a peer is one
of the two literal ASCII tokens `OK` (2 bytes) or `ERROR` (5 bytes); a
connection whose payload decodes to a JSON object is acknowledged `OK`,
and one whose payload fails JSON decoding is acknowledged `ERROR`. -/
theorem serverLoop_ack_tokens :
    (∀ (fe wxA : Bool) (es : List LoopEvent) (a : String),
        a ∈ (serverLoop fe wxA es).1 → a = "OK" ∨ a = "ERROR")
    ∧ "OK".length = 2 ∧ "ERROR".length = 5
    ∧ (∀ (fe wxA : Bool) (cmd : Option CmdVal),
        handleConn fe wxA (.text (.obj cmd)) =
          .ok (some "OK", decide (cmd = some (.str "focus")) && fe && wxA))
    ∧ (∀ (fe wxA : Bool),
        handleConn fe wxA (.text .fail) = .ok (some "ERROR", false)) := by
  refine ⟨?_, by decide, by decide, fun _ _ _ => rfl, fun _ _ => rfl⟩
  intro fe wxA es
  induction es with
  | nil => intro a ha; simp [serverLoop] at ha
  | cons e es ih =>
    intro a ha
    cases e with
    | acceptTimeout => exact ih a (by simpa [serverLoop] using ha)
    | acceptErr => simp [serverLoop] at ha
    | connection r =>
      cases r with
      | empty => exact ih a (by simpa [serverLoop, handleConn] using ha)
      | notUtf8 => simp [serverLoop, handleConn] at ha
      | text d =>
        cases d with
        | fail =>
          simp [serverLoop, handleConn] at ha
          rcases ha with rfl | ha
          · exact Or.inr rfl
          · exact ih a ha
        | nonObj => simp [serverLoop, handleConn] at ha
        | obj cmd =>
          simp [serverLoop, handleConn] at ha
          rcases ha with rfl | ha
          · exact Or.inl rfl
          · exact ih a ha

/-- Witness for C3 (amended): the acknowledgment written for a
JSON-malformed payload is one of the two tokens. -/
theorem serverLoop_ack_tokens_witness :
    "ERROR" = "OK" ∨ "ERROR" = "ERROR" :=
  serverLoop_ack_tokens.1 true true [.connection (.text .fail)] "ERROR"
    (by decide)

/-- C4, evaluated: a payload decoding to a JSON object whose `command`
entry is absent, an unrecognized string, or a non-string is acknowledged
`OK` with no dispatch scheduled — but a payload that decodes successfully
to a non-object (e.g. `[1, 2]`) makes `message.get` raise an uncaught
`AttributeError` inside `_handle_command`, so no `OK` is written and the
accept loop terminates. -/
theorem serverLoop_nonfocus_eval :
    serverLoop true true [.connection (.text .nonObj)] = ([], 0, .crashed)
    ∧ serverLoop true true [.connection (.text (.obj none))] =
        (["OK"], 0, .running)
    ∧ serverLoop true true
        [.connection (.text (.obj (some (.str "settings"))))] =
        (["OK"], 0, .running)
    ∧ serverLoop true true [.connection (.text (.obj (some .other)))] =
        (["OK"], 0, .running) := by
  decide

/-- C5: `register_frontend` returns `True` and stores the handle exactly
when no handle is registered; otherwise it returns `False` and leaves the
whole state (in particular the stored handle) unchanged — so at most one
frontend handle is registered at any time. -/
theorem register_frontend_spec {H : Type} (m : ManagerState H) (h : H) :
    (((register_frontend m h).1 = true
        ∧ (register_frontend m h).2.frontend_instance = some h) ↔
      m.frontend_instance = none)
    ∧ (m.frontend_instance ≠ none → register_frontend m h = (false, m)) := by
  cases hm : m.frontend_instance <;> simp [register_frontend, hm]

/-- Witness for C5: registering against an occupied registry fails and
leaves the stored handle unchanged. -/
theorem register_frontend_spec_witness :
    register_frontend
        { initState Nat with frontend_instance := some 7 } 3 =
      (false, { initState Nat with frontend_instance := some 7 }) :=
  (register_frontend_spec { initState Nat with frontend_instance := some 7 }
    3).2 (by simp [initState])

/-- C6: if any UI-handle invocation inside `_bring_to_foreground` raises
(`.error`), or the capability check finds no `IsShown` attribute (window
treated as destroyed), the registry ends up cleared; and a dispatch with
no registered handle is a no-op.  `bring_to_foreground` being a total
function into registry states embeds that no exception propagates to the
caller. -/
theorem bring_to_foreground_spec (h : FrontendHandle) :
    (bring_to_foreground_body h = .error () ∨ h.hasIsShown = false →
      bring_to_foreground (some h) = none)
    ∧ bring_to_foreground none = none := by
  refine ⟨?_, rfl⟩
  rintro (hb | hb)
  · simp [bring_to_foreground, hb]
  · have hok : bring_to_foreground_body h = .ok none := by
      simp [bring_to_foreground_body, hb]
    simp [bring_to_foreground, hok]

/-- Witness for C6: a handle whose `Raise()` raises is cleared from the
registry, and the subsequent dispatch on the empty registry is a no-op. -/
theorem bring_to_foreground_spec_witness :
    bring_to_foreground
        (some ⟨true, .ok true, .ok (), false, .ok false, .ok (), .error (),
          .ok (), false, .ok ()⟩) = none
    ∧ bring_to_foreground none = none :=
  ⟨(bring_to_foreground_spec
      ⟨true, .ok true, .ok (), false, .ok false, .ok (), .error (),
        .ok (), false, .ok ()⟩).1 (Or.inl rfl),
   (bring_to_foreground_spec
      ⟨true, .ok true, .ok (), false, .ok false, .ok (), .error (),
        .ok (), false, .ok ()⟩).2⟩

/-- C7: `stop_server` is a total function on every manager state — the
freshly-constructed state (stop before start), states left by a failed
start, states whose socket close would raise, and states a previous
`stop_server` produced — and after it returns the frontend registry holds
no handle (and the running flag is cleared); calling it twice in a row is
equally safe. -/
theorem stop_server_spec {H : Type} (m : ManagerState H) :
    (stop_server m).frontend_instance = none
    ∧ (stop_server m).running = false
    ∧ (stop_server (stop_server m)).frontend_instance = none
    ∧ (stop_server (initState H)).frontend_instance = none := by
  obtain ⟨p, so, ht, ta, r, fe⟩ := m
  cases so with
  | none => simp [stop_server, unregister_frontend, initState]
  | some s =>
    obtain ⟨c, cr⟩ := s
    cases cr <;> simp [stop_server, unregister_frontend, initState]

/-- C8: on each poll cycle, a buffer length differing from the watermark
emits exactly one relay event carrying the full current buffer and sets
the watermark to the observed length; an equal length emits nothing; and a
buffer going from length 0 to 12 and staying at 12 across two cycles
produces exactly one event. -/
theorem poller_spec (w : Nat) (b : String) (s : String) :
    (w ≠ b.length → pollCycle w b = (b.length, some b))
    ∧ (w = b.length → pollCycle w b = (w, none))
    ∧ (s.length = 12 → pollRun 0 [s, s] = [s]) := by
  refine ⟨fun hw => ?_, fun hw => ?_, fun hs => ?_⟩
  · simp [pollCycle, hw]
  · simp [pollCycle, hw]
  · simp [pollRun, pollCycle, hs]

/-- Witness for C8: a changed length fires one event with the full buffer,
an unchanged length fires none, and the 0-to-12-twice trace fires exactly
once. -/
theorem poller_spec_witness :
    pollCycle 0 "hi" = (2, some "hi")
    ∧ pollCycle 2 "hi" = (2, none)
    ∧ pollRun 0 ["abcdefghijkl", "abcdefghijkl"] = ["abcdefghijkl"] :=
  ⟨(poller_spec 0 "hi" "x").1 (by decide),
   (poller_spec 2 "hi" "x").2.1 (by decide),
   (poller_spec 0 "x" "abcdefghijkl").2.2 (by decide)⟩

/-- C9: `print_to_buffer` only appends — the previous buffer content is a
prefix of the new content (each argument appended stringified and
newline-terminated) and the buffer length never shrinks. -/
theorem print_to_buffer_append_only (buf : String) (args : List String) :
    (∃ t, print_to_buffer buf args = buf ++ t)
    ∧ buf.length ≤ (print_to_buffer buf args).length := by
  have key : ∀ (as : List String) (b : String),
      ∃ t, print_to_buffer b as = b ++ t := by
    intro as
    induction as with
    | nil =>
      intro b
      exact ⟨"", by simp [print_to_buffer]⟩
    | cons a as ih =>
      intro b
      obtain ⟨t, ht⟩ := ih (b ++ a ++ "\n")
      refine ⟨a ++ "\n" ++ t, ?_⟩
      have hc : print_to_buffer b (a :: as) =
          print_to_buffer (b ++ a ++ "\n") as := rfl
      rw [hc, ht]
      simp [String.append_assoc]
  obtain ⟨t, ht⟩ := key args buf
  refine ⟨⟨t, ht⟩, ?_⟩
  rw [ht]
  simp [String.length_append]

/-- C10: a connection whose received payload is empty gets no
acknowledgment at all — neither `OK` nor `ERROR` — and no dispatch; the
connection is simply closed and the loop behaves as if the connection had
not happened. -/
theorem serverLoop_empty_payload (fe wxA : Bool) (es : List LoopEvent) :
    handleConn fe wxA .empty = .ok (none, false)
    ∧ serverLoop fe wxA (.connection .empty :: es) = serverLoop fe wxA es := by
  refine ⟨rfl, ?_⟩
  simp [serverLoop, handleConn]
